import Mathlib

/-!
Shallow embedding of the request-resilience and normalization layer of the
gitlabmcp repository: the retrying GraphQL/REST transports
(`src/api/graphql.ts`, `src/api/rest.ts`), the cursor paginator
(`src/api/pagination.ts`), the normalizer (`src/api/normalize.ts`), the view
cache (`src/utils/cache.ts`) and the view orchestrator
(`src/api/mergeRequestView.ts`), together with theorems settling the frozen
claims about this layer.

Network effects are made explicit: a transport run is parametrised by the
outcome of each `fetch` attempt (indexed by attempt number) and by the jitter
value drawn at each attempt, and it returns a trace recording the result, the
number of network calls performed and the list of sleep durations (in
milliseconds, as rationals since jitter is a real-valued draw).
-/

namespace GitLabMCP

/-- Error codes from `src/utils/errors.ts` (`enum GitLabErrorCode`). -/
inductive GitLabErrorCode where
  | GITLAB_NET_ERR
  | GITLAB_AUTH_ERR
  | GITLAB_RATE_LIMIT
  | GITLAB_NOT_FOUND
  | GITLAB_GRAPHQL_ERR
  | GITLAB_UNKNOWN_ERR
  deriving DecidableEq, Repr

/-- `class GitLabError` from `src/utils/errors.ts`: code, message, optional
HTTP status, optional retry-after seconds. -/
structure GitLabError where
  code : GitLabErrorCode
  message : String
  statusCode : Option Nat := none
  retryAfter : Option Nat := none
  deriving DecidableEq, Repr

/-- `createGitLabError` from `src/utils/errors.ts`. -/
def createGitLabError (code : GitLabErrorCode) (message : String)
    (statusCode : Option Nat := none) (retryAfter : Option Nat := none) :
    GitLabError :=
  { code := code, message := message, statusCode := statusCode,
    retryAfter := retryAfter }

/-- Outcome of one `fetch` attempt: either the promise rejects (a plain
`Error` with the given message, carrying no `code` field), or an HTTP
response arrives with a status, an optional parsed `Retry-After` header
(in seconds) and a decoded JSON body of type `β`. -/
inductive FetchOutcome (β : Type) where
  | exn (message : String)
  | resp (status : Nat) (retryAfterHeader : Option Nat) (body : β)
  deriving DecidableEq, Repr

/-- Body shape of a GraphQL response (`interface GraphQLResponse` in
`src/api/graphql.ts`): optional `data`, optional `errors` array (we keep
only the messages, which is all the code reads). An absent `errors` field
is represented by the empty list, which the code treats identically. -/
structure GraphQLBody (α : Type) where
  errors : List String
  data : Option α
  deriving DecidableEq, Repr

/-- `response.ok` for the WHATWG fetch API: status in the range 200..299. -/
def statusOk (status : Nat) : Bool :=
  decide (200 ≤ status) && decide (status < 300)

/-- Errors caught by the `catch` block of a transport loop: either a
`GitLabError` (which has a `code` field) or a plain error (no `code`). -/
inductive CaughtError where
  | gitlab (e : GitLabError)
  | plain (message : String)
  deriving DecidableEq, Repr

/-- Observable trace of one transport run: final result, number of `fetch`
calls performed, and the sleep durations (ms) in order. -/
structure TransportTrace (α : Type) where
  result : Except GitLabError α
  calls : Nat
  sleeps : List ℚ

/-- The code after the retry loop in both transports: rethrow `lastError`
when it carries a `code`, otherwise wrap it as `GITLAB_NET_ERR`. -/
def finalizeRequest {α : Type} (retries : Nat) (lastError : Option CaughtError) :
    Except GitLabError α :=
  match lastError with
  | some (.gitlab e) => Except.error e
  | some (.plain msg) =>
      Except.error (createGitLabError .GITLAB_NET_ERR
        ("Network error after " ++ toString retries ++ " retries: " ++ msg))
  | none => Except.error (createGitLabError .GITLAB_NET_ERR "Unknown network error")

/-- The generic-retry backoff delay computed in the `catch` blocks of both
transports: `retryDelay * Math.pow(2, attempt) + jitter`. -/
def backoffDelay (retryDelay attempt : Nat) (jitter : ℚ) : ℚ :=
  (retryDelay : ℚ) * 2 ^ attempt + jitter

/-- The rate-limit sleep computed in the 429 branch of both transports:
`retryAfterSeconds * 1000 + jitter`. -/
def rateLimitDelay (retryAfterSeconds : Nat) (jitter : ℚ) : ℚ :=
  (retryAfterSeconds : ℚ) * 1000 + jitter

/-- The retry loop of `graphqlRequest` (`src/api/graphql.ts`, lines 34-135),
unrolled over the remaining loop iterations `rem` (the top-level entry uses
`rem = retries + 1`, matching `for (attempt = 0; attempt <= retries; ...)`).

Branches, in source order: 429 (sleep `retryAfterSeconds*1000 + jitter1000`
and continue if attempts remain, else throw `GITLAB_RATE_LIMIT`, which the
catch block rethrows as non-retryable); 401/403 (throw `GITLAB_AUTH_ERR`,
non-retryable in the catch block); any other non-ok status (throw
`GITLAB_UNKNOWN_ERR`, retryable); 200-ok body with non-empty `errors` or
missing `data` (throw `GITLAB_GRAPHQL_ERR`, retryable — the catch block
only exempts `GITLAB_AUTH_ERR` and `GITLAB_RATE_LIMIT` from retry);
otherwise success. A rejected fetch is a plain error, retryable. -/
def graphqlRequestGo {α : Type} (retries retryDelay : Nat)
    (fetchAt : Nat → FetchOutcome (GraphQLBody α))
    (jitter500 jitter1000 : Nat → ℚ) :
    Nat → Nat → Option CaughtError → TransportTrace α
  | _, 0, lastError => ⟨finalizeRequest retries lastError, 0, []⟩
  | attempt, rem + 1, lastError =>
    match fetchAt attempt with
    | .exn msg =>
        if attempt < retries then
          let rest := graphqlRequestGo retries retryDelay fetchAt jitter500 jitter1000
            (attempt + 1) rem (some (.plain msg))
          ⟨rest.result, rest.calls + 1,
            backoffDelay retryDelay attempt (jitter500 attempt) :: rest.sleeps⟩
        else
          ⟨finalizeRequest retries (some (.plain msg)), 1, []⟩
    | .resp status retryAfterHeader body =>
        if status = 429 then
          let retryAfterSeconds := retryAfterHeader.getD 60
          if attempt < retries then
            let rest := graphqlRequestGo retries retryDelay fetchAt jitter500 jitter1000
              (attempt + 1) rem lastError
            ⟨rest.result, rest.calls + 1,
              rateLimitDelay retryAfterSeconds (jitter1000 attempt) :: rest.sleeps⟩
          else
            ⟨Except.error (createGitLabError .GITLAB_RATE_LIMIT
              ("Rate limit exceeded. Please retry after " ++ toString retryAfterSeconds ++
                " seconds.\nGitLab API rate limits: https://docs.gitlab.com/ee/api/#rate-limits")
              (some 429) (some retryAfterSeconds)), 1, []⟩
        else if status = 401 ∨ status = 403 then
          ⟨Except.error (createGitLabError .GITLAB_AUTH_ERR
            ("Authentication failed. Token may be missing read_api or api scope.\n" ++
              "Create a token at: https://gitlab.com/-/profile/personal_access_tokens\n" ++
              "Required scopes: read_api (for read operations) or api (for read/write operations)")
            (some status)), 1, []⟩
        else if ¬ statusOk status then
          let e := createGitLabError .GITLAB_UNKNOWN_ERR
            ("GraphQL request failed with status " ++ toString status) (some status)
          if attempt < retries then
            let rest := graphqlRequestGo retries retryDelay fetchAt jitter500 jitter1000
              (attempt + 1) rem (some (.gitlab e))
            ⟨rest.result, rest.calls + 1,
              backoffDelay retryDelay attempt (jitter500 attempt) :: rest.sleeps⟩
          else
            ⟨Except.error e, 1, []⟩
        else if body.errors ≠ [] then
          let e := createGitLabError .GITLAB_GRAPHQL_ERR
            ("GraphQL errors: " ++ String.intercalate ", " body.errors) (some status)
          if attempt < retries then
            let rest := graphqlRequestGo retries retryDelay fetchAt jitter500 jitter1000
              (attempt + 1) rem (some (.gitlab e))
            ⟨rest.result, rest.calls + 1,
              backoffDelay retryDelay attempt (jitter500 attempt) :: rest.sleeps⟩
          else
            ⟨Except.error e, 1, []⟩
        else
          match body.data with
          | none =>
              let e := createGitLabError .GITLAB_GRAPHQL_ERR
                "GraphQL response missing data" (some status)
              if attempt < retries then
                let rest := graphqlRequestGo retries retryDelay fetchAt jitter500 jitter1000
                  (attempt + 1) rem (some (.gitlab e))
                ⟨rest.result, rest.calls + 1,
                  backoffDelay retryDelay attempt (jitter500 attempt) :: rest.sleeps⟩
              else
                ⟨Except.error e, 1, []⟩
          | some d => ⟨Except.ok d, 1, []⟩

/-- `graphqlRequest` from `src/api/graphql.ts`, as a trace function. The
source defaults are `retries = 3`, `retryDelay = 1000`. -/
def graphqlRequest {α : Type} (retries retryDelay : Nat)
    (fetchAt : Nat → FetchOutcome (GraphQLBody α))
    (jitter500 jitter1000 : Nat → ℚ) : TransportTrace α :=
  graphqlRequestGo retries retryDelay fetchAt jitter500 jitter1000 0 (retries + 1) none

/-- The retry loop of `restRequest` (`src/api/rest.ts`, lines 28-113).
Identical to the GraphQL loop except: a dedicated 404 branch throws
`GITLAB_NOT_FOUND`, the catch block also exempts `GITLAB_NOT_FOUND` from
retry, and a 2xx response's JSON body is returned without further checks. -/
def restRequestGo {α : Type} (path : String) (retries retryDelay : Nat)
    (fetchAt : Nat → FetchOutcome α)
    (jitter500 jitter1000 : Nat → ℚ) :
    Nat → Nat → Option CaughtError → TransportTrace α
  | _, 0, lastError => ⟨finalizeRequest retries lastError, 0, []⟩
  | attempt, rem + 1, lastError =>
    match fetchAt attempt with
    | .exn msg =>
        if attempt < retries then
          let rest := restRequestGo path retries retryDelay fetchAt jitter500 jitter1000
            (attempt + 1) rem (some (.plain msg))
          ⟨rest.result, rest.calls + 1,
            backoffDelay retryDelay attempt (jitter500 attempt) :: rest.sleeps⟩
        else
          ⟨finalizeRequest retries (some (.plain msg)), 1, []⟩
    | .resp status retryAfterHeader body =>
        if status = 429 then
          let retryAfterSeconds := retryAfterHeader.getD 60
          if attempt < retries then
            let rest := restRequestGo path retries retryDelay fetchAt jitter500 jitter1000
              (attempt + 1) rem lastError
            ⟨rest.result, rest.calls + 1,
              rateLimitDelay retryAfterSeconds (jitter1000 attempt) :: rest.sleeps⟩
          else
            ⟨Except.error (createGitLabError .GITLAB_RATE_LIMIT
              "Rate limit exceeded" (some 429) (some retryAfterSeconds)), 1, []⟩
        else if status = 401 ∨ status = 403 then
          ⟨Except.error (createGitLabError .GITLAB_AUTH_ERR
            "Authentication failed. Token may be missing read_api or api scope."
            (some status)), 1, []⟩
        else if status = 404 then
          ⟨Except.error (createGitLabError .GITLAB_NOT_FOUND
            ("Resource not found: " ++ path) (some 404)), 1, []⟩
        else if ¬ statusOk status then
          let e := createGitLabError .GITLAB_UNKNOWN_ERR
            ("REST request failed with status " ++ toString status) (some status)
          if attempt < retries then
            let rest := restRequestGo path retries retryDelay fetchAt jitter500 jitter1000
              (attempt + 1) rem (some (.gitlab e))
            ⟨rest.result, rest.calls + 1,
              backoffDelay retryDelay attempt (jitter500 attempt) :: rest.sleeps⟩
          else
            ⟨Except.error e, 1, []⟩
        else
          ⟨Except.ok body, 1, []⟩

/-- `restRequest` from `src/api/rest.ts`, as a trace function. The source
defaults are `retries = 3`, `retryDelay = 1000`. -/
def restRequest {α : Type} (path : String) (retries retryDelay : Nat)
    (fetchAt : Nat → FetchOutcome α)
    (jitter500 jitter1000 : Nat → ℚ) : TransportTrace α :=
  restRequestGo path retries retryDelay fetchAt jitter500 jitter1000 0 (retries + 1) none

/-! ## Data model (`src/types/index.ts`) -/

/-- `interface User`. -/
structure User where
  id : String
  username : String
  name : String
  avatarUrl : Option String
  webUrl : String
  deriving DecidableEq, Repr

/-- `interface Commit`. -/
structure Commit where
  id : String
  sha : String
  title : String
  message : String
  authorName : String
  authorEmail : String
  authoredDate : String
  committedDate : String
  webUrl : String
  deriving DecidableEq, Repr

/-- `interface Pipeline`. -/
structure Pipeline where
  id : String
  status : String
  ref : String
  sha : String
  webUrl : String
  createdAt : String
  updatedAt : String
  duration : Option Int
  deriving DecidableEq, Repr

/-- `interface ApprovalInfo`. -/
structure ApprovalInfo where
  approved : Bool
  approvedBy : List User
  approvalsRequired : Int
  approvalsLeft : Int
  deriving DecidableEq, Repr

/-- `interface Diff`. -/
structure Diff where
  oldPath : String
  newPath : String
  aMode : Option String
  bMode : Option String
  diff : String
  newFile : Bool
  renamedFile : Bool
  deletedFile : Bool
  deriving DecidableEq, Repr

/-- The anonymous `position` record of `interface Note`. -/
structure NotePosition where
  oldLine : Option Int
  newLine : Option Int
  oldPath : Option String
  newPath : Option String
  deriving DecidableEq, Repr

/-- `interface Note`. -/
structure Note where
  id : String
  body : String
  author : User
  createdAt : String
  updatedAt : String
  resolvable : Bool
  resolved : Option Bool
  position : Option NotePosition
  deriving DecidableEq, Repr

/-- `interface Discussion`. -/
structure Discussion where
  id : String
  notes : List Note
  resolved : Bool
  resolvable : Bool
  deriving DecidableEq, Repr

/-- `interface MergeRequestView`: the normalized final output shape. -/
structure MergeRequestView where
  id : String
  iid : String
  title : String
  description : Option String
  state : String
  author : User
  assignees : List User
  reviewers : List User
  labels : List String
  sourceBranch : String
  targetBranch : String
  webUrl : String
  createdAt : String
  updatedAt : String
  mergedAt : Option String
  changesCount : Option String
  commits : List Commit
  pipelines : List Pipeline
  approvals : ApprovalInfo
  diffs : List Diff
  discussions : List Discussion
  deriving DecidableEq, Repr

/-! ## Raw GraphQL response shape (`src/queries/mergeRequest.ts`,
reconstructed from the fields destructured by `src/api/normalize.ts` and
`src/api/pagination.ts`) -/

/-- A GraphQL connection carrying only nodes. -/
structure Connection (α : Type) where
  nodes : List α
  deriving DecidableEq, Repr

/-- `interface PageInfo` (`src/api/pagination.ts`): `hasNextPage` and a
nullable `endCursor`. -/
structure PageInfo where
  hasNextPage : Bool
  endCursor : Option String
  deriving DecidableEq, Repr

/-- A GraphQL connection carrying nodes and page info (commits,
discussions). -/
structure PagedConnection (α : Type) where
  nodes : List α
  pageInfo : PageInfo
  deriving DecidableEq, Repr

/-- Raw GraphQL user node; `avatarUrl` is nullable. -/
structure RawUser where
  id : String
  username : String
  name : String
  avatarUrl : Option String
  webUrl : String
  deriving DecidableEq, Repr

/-- Raw GraphQL label node. -/
structure RawLabel where
  title : String
  deriving DecidableEq, Repr

/-- Raw GraphQL commit node. -/
structure RawCommit where
  id : String
  sha : String
  title : String
  message : String
  authorName : String
  authorEmail : String
  authoredDate : String
  committedDate : String
  webUrl : String
  deriving DecidableEq, Repr

/-- Raw GraphQL pipeline node; `duration` is nullable and `webUrl` is not
provided by GraphQL. -/
structure RawPipeline where
  id : String
  status : String
  ref : String
  sha : String
  createdAt : String
  updatedAt : String
  duration : Option Int
  deriving DecidableEq, Repr

/-- Raw GraphQL note position; all four fields nullable. -/
structure RawPosition where
  oldLine : Option Int
  newLine : Option Int
  oldPath : Option String
  newPath : Option String
  deriving DecidableEq, Repr

/-- Raw GraphQL note node. -/
structure RawNote where
  id : String
  body : String
  author : RawUser
  createdAt : String
  updatedAt : String
  resolvable : Bool
  resolved : Bool
  position : Option RawPosition
  deriving DecidableEq, Repr

/-- Raw GraphQL discussion node. -/
structure RawDiscussion where
  id : String
  resolved : Bool
  resolvable : Bool
  notes : Connection RawNote
  deriving DecidableEq, Repr

/-- Raw GraphQL merge request object. -/
structure RawMergeRequest where
  id : String
  iid : String
  title : String
  description : Option String
  state : String
  author : RawUser
  assignees : Connection RawUser
  reviewers : Connection RawUser
  labels : Connection RawLabel
  sourceBranch : String
  targetBranch : String
  webUrl : String
  createdAt : String
  updatedAt : String
  mergedAt : Option String
  approved : Bool
  commits : PagedConnection RawCommit
  pipelines : Connection RawPipeline
  discussions : PagedConnection RawDiscussion
  deriving DecidableEq, Repr

/-- Raw GraphQL project object: `mergeRequest` is nullable. -/
structure RawProject where
  mergeRequest : Option RawMergeRequest
  deriving DecidableEq, Repr

/-- `interface MRQueryResponse`: `project` is nullable. -/
structure MRQueryResponse where
  project : Option RawProject
  deriving DecidableEq, Repr

/-! ## Normalizer (`src/api/normalize.ts`)

JavaScript `x || undefined` maps every falsy value (null, empty string, 0,
false) to `undefined`; the `truthy*` helpers make this explicit. -/

/-- `x || undefined` for a nullable string: null and the empty string map
to absent. -/
def truthyString : Option String → Option String
  | none => none
  | some s => if s = "" then none else some s

/-- `x || undefined` for a nullable number: null and 0 map to absent. -/
def truthyInt : Option Int → Option Int
  | none => none
  | some n => if n = 0 then none else some n

/-- `x || undefined` for a boolean: false maps to absent. -/
def truthyBool : Bool → Option Bool
  | false => none
  | true => some true

/-- The `normalizeUser` closure inside `normalizeMR`. -/
def normalizeUser (user : RawUser) : User :=
  { id := user.id, username := user.username, name := user.name,
    avatarUrl := truthyString user.avatarUrl, webUrl := user.webUrl }

/-- The commit-node mapping inside `normalizeMR` (and the identical one
inside `fetchMoreCommits`). -/
def normalizeCommitNode (node : RawCommit) : Commit :=
  { id := node.id, sha := node.sha, title := node.title,
    message := node.message, authorName := node.authorName,
    authorEmail := node.authorEmail, authoredDate := node.authoredDate,
    committedDate := node.committedDate, webUrl := node.webUrl }

/-- The pipeline-node mapping inside `normalizeMR`; `webUrl` is not
available in GraphQL and is set to the empty string. -/
def normalizePipelineNode (node : RawPipeline) : Pipeline :=
  { id := node.id, status := node.status, ref := node.ref, sha := node.sha,
    webUrl := "", createdAt := node.createdAt, updatedAt := node.updatedAt,
    duration := truthyInt node.duration }

/-- The note mapping inside `normalizeMR` (and the identical one inside
`fetchMoreDiscussions`). -/
def normalizeNote (note : RawNote) : Note :=
  { id := note.id, body := note.body, author := normalizeUser note.author,
    createdAt := note.createdAt, updatedAt := note.updatedAt,
    resolvable := note.resolvable, resolved := truthyBool note.resolved,
    position :=
      match note.position with
      | none => none
      | some p => some
          { oldLine := truthyInt p.oldLine, newLine := truthyInt p.newLine,
            oldPath := truthyString p.oldPath,
            newPath := truthyString p.newPath } }

/-- The discussion-node mapping inside `normalizeMR` (and the identical one
inside `fetchMoreDiscussions`). -/
def normalizeDiscussionNode (node : RawDiscussion) : Discussion :=
  { id := node.id, resolved := node.resolved, resolvable := node.resolvable,
    notes := node.notes.nodes.map normalizeNote }

/-- `normalizeMR` from `src/api/normalize.ts`. When the root project or
merge request is absent it throws a plain `Error` — one carrying no
`GitLabErrorCode` — with the message below; the failure is therefore
modelled as `Except.error` over a bare message string. -/
def normalizeMR (data : MRQueryResponse) : Except String MergeRequestView :=
  match data.project with
  | none => Except.error "Invalid MR data: project or mergeRequest is null"
  | some project =>
    match project.mergeRequest with
    | none => Except.error "Invalid MR data: project or mergeRequest is null"
    | some mr =>
        Except.ok
          { id := mr.id, iid := mr.iid, title := mr.title,
            description := truthyString mr.description, state := mr.state,
            author := normalizeUser mr.author,
            assignees := mr.assignees.nodes.map normalizeUser,
            reviewers := mr.reviewers.nodes.map normalizeUser,
            labels := mr.labels.nodes.map RawLabel.title,
            sourceBranch := mr.sourceBranch, targetBranch := mr.targetBranch,
            webUrl := mr.webUrl, createdAt := mr.createdAt,
            updatedAt := mr.updatedAt,
            mergedAt := truthyString mr.mergedAt,
            changesCount := none,
            commits := mr.commits.nodes.map normalizeCommitNode,
            pipelines := mr.pipelines.nodes.map normalizePipelineNode,
            approvals :=
              { approved := mr.approved, approvedBy := [],
                approvalsRequired := 0, approvalsLeft := 0 },
            diffs := [],
            discussions := mr.discussions.nodes.map normalizeDiscussionNode }

/-! ## Paginator (`src/api/pagination.ts`)

The page-fetch primitives (`fetchMoreCommits` / `fetchMoreDiscussions`)
perform one transport call for a given cursor; they are abstracted here as
a function from cursor to either a classified error (a throw propagating
out of the whole operation) or a `PaginatedResult`. The first page is
requested with the empty-string cursor, exactly as in the source. The
`while (hasMore && cursor)` loop is unrolled over an explicit fuel
parameter, since nothing in the source bounds it; exhausting the fuel
yields `none` in the trace, meaning the loop ran at least that many
iterations without terminating. -/

/-- `PaginatedResult` from `src/api/pagination.ts`. -/
structure PaginatedResult (ι : Type) where
  items : List ι
  pageInfo : PageInfo
  deriving DecidableEq, Repr

/-- JavaScript truthiness of the `cursor` variable (`string | null`): null
and the empty string are falsy. -/
def cursorTruthy : Option String → Bool
  | none => false
  | some s => decide (s ≠ "")

/-- The `filter`-with-`seen`-set body of `deduplicateById`, with the `Set`
made explicit as the list of ids already seen. -/
def deduplicateByIdGo {ι : Type} (getId : ι → String) (seen : List String) :
    List ι → List ι
  | [] => []
  | item :: rest =>
      if getId item ∈ seen then deduplicateByIdGo getId seen rest
      else item :: deduplicateByIdGo getId (getId item :: seen) rest

/-- `deduplicateById` from `src/api/pagination.ts`: keep the first
occurrence of each id, preserving order. -/
def deduplicateById {ι : Type} (getId : ι → String) (items : List ι) : List ι :=
  deduplicateByIdGo getId [] items

/-- Trace of a `fetchAll` run: `none` means the loop did not terminate
within the fuel; otherwise the propagated error or the final item list.
`calls` counts page fetches performed. -/
structure PaginationTrace (ι : Type) where
  result : Option (Except GitLabError (List ι))
  calls : Nat

/-- The `while (hasMore && cursor)` loop shared verbatim by
`fetchAllCommits` (lines 138-143) and `fetchAllDiscussions`
(lines 162-167). -/
def fetchAllLoop {ι : Type}
    (fetchPage : String → Except GitLabError (PaginatedResult ι)) :
    Nat → Option String → Bool → List ι → PaginationTrace ι
  | 0, cursor, hasMore, acc =>
      if hasMore && cursorTruthy cursor then ⟨none, 0⟩
      else ⟨some (Except.ok acc), 0⟩
  | fuel + 1, cursor, hasMore, acc =>
      if hasMore && cursorTruthy cursor then
        match fetchPage (cursor.getD "") with
        | Except.error e => ⟨some (Except.error e), 1⟩
        | Except.ok page =>
            let rest := fetchAllLoop fetchPage fuel page.pageInfo.endCursor
              page.pageInfo.hasNextPage (acc ++ page.items)
            ⟨rest.result, rest.calls + 1⟩
      else ⟨some (Except.ok acc), 0⟩

/-- The common body of `fetchAllCommits` and `fetchAllDiscussions`: fetch
the first page with the empty cursor, run the loop, deduplicate by id. -/
def fetchAllByCursor {ι : Type} (getId : ι → String)
    (fetchPage : String → Except GitLabError (PaginatedResult ι))
    (fuel : Nat) : PaginationTrace ι :=
  match fetchPage "" with
  | Except.error e => ⟨some (Except.error e), 1⟩
  | Except.ok firstPage =>
      let rest := fetchAllLoop fetchPage fuel firstPage.pageInfo.endCursor
        firstPage.pageInfo.hasNextPage firstPage.items
      ⟨rest.result.map (fun r => r.map (deduplicateById getId)), rest.calls + 1⟩

/-- `fetchAllCommits` from `src/api/pagination.ts`, over an abstract
commit-page fetcher. -/
def fetchAllCommits
    (fetchPage : String → Except GitLabError (PaginatedResult Commit))
    (fuel : Nat) : PaginationTrace Commit :=
  fetchAllByCursor Commit.id fetchPage fuel

/-- `fetchAllDiscussions` from `src/api/pagination.ts`, over an abstract
discussion-page fetcher. -/
def fetchAllDiscussions
    (fetchPage : String → Except GitLabError (PaginatedResult Discussion))
    (fuel : Nat) : PaginationTrace Discussion :=
  fetchAllByCursor Discussion.id fetchPage fuel

/-! ## View cache (`src/utils/cache.ts`)

`MRCache` wraps two instances of the external `lru-cache` library. The
library is not part of the repository; its behaviour used here is modelled
from its documented contract and the spec: entries carry their insertion
time; `get` returns a value unless more than `ttl` milliseconds have
elapsed since insertion (lazy expiry, no I/O); `set` (re)inserts at the
most-recent position, resetting the TTL clock; at most `max` entries are
retained, dropping the least recent. Time is an explicit virtual-clock
parameter in milliseconds. -/

/-- `CacheOptions` from `src/utils/cache.ts` (all fields optional). -/
structure CacheOptions where
  maxSize : Option Nat := none
  ttlMs : Option Nat := none
  diffTtlMs : Option Nat := none
  deriving DecidableEq, Repr

/-- The resolved options after `{ ...DEFAULT_OPTIONS, ...options }`. -/
structure ResolvedCacheOptions where
  maxSize : Nat
  ttlMs : Nat
  diffTtlMs : Nat
  deriving DecidableEq, Repr

/-- `DEFAULT_OPTIONS` from `src/utils/cache.ts`: 100 entries, 30000 ms for
the main view, 120000 ms for diffs. -/
def DEFAULT_OPTIONS : ResolvedCacheOptions :=
  { maxSize := 100, ttlMs := 30000, diffTtlMs := 120000 }

/-- The option merge `{ ...DEFAULT_OPTIONS, ...options }` performed by the
`MRCache` constructor. -/
def resolveCacheOptions (options : CacheOptions) : ResolvedCacheOptions :=
  { maxSize := options.maxSize.getD DEFAULT_OPTIONS.maxSize,
    ttlMs := options.ttlMs.getD DEFAULT_OPTIONS.ttlMs,
    diffTtlMs := options.diffTtlMs.getD DEFAULT_OPTIONS.diffTtlMs }

/-- One entry of an lru-cache instance: key, value, insertion time (ms). -/
structure LRUEntry (α : Type) where
  key : String
  value : α
  insertedAt : Nat
  deriving DecidableEq, Repr

/-- Modelled from the spec: lru-cache `get` — look the key up and treat the
entry as absent when more than `ttl` ms have elapsed since insertion
("read any number of times until `now - insertedAt > ttl`, at which point
it is logically absent (lazy expiry)"). -/
def lruGet {α : Type} (entries : List (LRUEntry α)) (ttl : Nat) (key : String)
    (now : Nat) : Option α :=
  match entries.find? (fun e => decide (e.key = key)) with
  | none => none
  | some e => if now - e.insertedAt > ttl then none else some e.value

/-- Modelled from the spec: lru-cache `set` — unconditionally (re)insert at
the most-recent position with a fresh insertion time, keeping at most
`maxSize` entries (least recent dropped). -/
def lruSet {α : Type} (entries : List (LRUEntry α)) (maxSize : Nat)
    (key : String) (value : α) (now : Nat) : List (LRUEntry α) :=
  (⟨key, value, now⟩ :: entries.filter (fun e => decide (e.key ≠ key))).take maxSize

/-- `class MRCache`: resolved construction options plus the two cache
spaces (`cache` for views, `diffCache` for diffs). -/
structure MRCache where
  options : ResolvedCacheOptions
  mainEntries : List (LRUEntry MergeRequestView)
  diffEntries : List (LRUEntry (List Diff))

/-- The `MRCache` constructor: resolve options, start both spaces empty. -/
def mkMRCache (options : CacheOptions) : MRCache :=
  { options := resolveCacheOptions options, mainEntries := [], diffEntries := [] }

/-- `MRCache.getKey`. -/
def MRCache.getKey (fullPath iid : String) : String :=
  "project:" ++ fullPath ++ ":mr:" ++ iid

/-- `MRCache.get`: pure read of the main space (logging aside, it performs
no I/O and does not mutate the model). -/
def MRCache.get (c : MRCache) (fullPath iid : String) (now : Nat) :
    Option MergeRequestView :=
  lruGet c.mainEntries c.options.ttlMs (MRCache.getKey fullPath iid) now

/-- `MRCache.set`: insert into the main space. -/
def MRCache.set (c : MRCache) (fullPath iid : String)
    (value : MergeRequestView) (now : Nat) : MRCache :=
  { c with mainEntries :=
      lruSet c.mainEntries c.options.maxSize (MRCache.getKey fullPath iid) value now }

/-- `MRCache.getDiffs`: pure read of the diff space. -/
def MRCache.getDiffs (c : MRCache) (fullPath iid : String) (now : Nat) :
    Option (List Diff) :=
  lruGet c.diffEntries c.options.diffTtlMs (MRCache.getKey fullPath iid) now

/-- `MRCache.setDiffs`: insert into the diff space. -/
def MRCache.setDiffs (c : MRCache) (fullPath iid : String)
    (diffs : List Diff) (now : Nat) : MRCache :=
  { c with diffEntries :=
      lruSet c.diffEntries c.options.maxSize (MRCache.getKey fullPath iid) diffs now }

/-- `MRCache.delete`: remove the fingerprint from both spaces. -/
def MRCache.delete (c : MRCache) (fullPath iid : String) : MRCache :=
  { c with
    mainEntries := c.mainEntries.filter
      (fun e => decide (e.key ≠ MRCache.getKey fullPath iid)),
    diffEntries := c.diffEntries.filter
      (fun e => decide (e.key ≠ MRCache.getKey fullPath iid)) }

/-- `MRCache.clear`: empty both spaces. -/
def MRCache.clear (c : MRCache) : MRCache :=
  { c with mainEntries := [], diffEntries := [] }

/-- `MRCache.getStats`. -/
def MRCache.getStats (c : MRCache) : Nat × Nat :=
  (c.mainEntries.length, c.diffEntries.length)

/-! ## View orchestrator (`src/api/mergeRequestView.ts`) -/

/-- The `catch` block of `getMergeRequestView` (lines 52-63): an error
carrying a `code` field is rethrown as-is; anything else is wrapped as
`GITLAB_UNKNOWN_ERR`. -/
def wrapViewError : CaughtError → GitLabError
  | .gitlab e => e
  | .plain msg =>
      createGitLabError .GITLAB_UNKNOWN_ERR
        ("Failed to fetch merge request view: " ++ msg)

/-- The `try` body of `getMergeRequestView` (lines 39-51): fetch via
`getMergeRequest` (abstracted as `fetchOutcome` — either a thrown error or
the raw response), normalize, write through to the cache when `useCache`.
Failures fall to the `catch` block, `wrapViewError`. -/
def getMergeRequestViewFetch (c : MRCache) (now : Nat) (fullPath iid : String)
    (useCache : Bool) (fetchOutcome : Except CaughtError MRQueryResponse) :
    Except GitLabError MergeRequestView × MRCache :=
  match fetchOutcome with
  | Except.error e => (Except.error (wrapViewError e), c)
  | Except.ok data =>
      match normalizeMR data with
      | Except.error msg => (Except.error (wrapViewError (.plain msg)), c)
      | Except.ok view =>
          (Except.ok view,
            if useCache then MRCache.set c fullPath iid view now else c)

/-- `getMergeRequestView` from `src/api/mergeRequestView.ts`: consult the
cache unless `forceRefresh` or `useCache = false`, otherwise run the fetch
path. Source defaults: `forceRefresh = false`, `useCache = true`. -/
def getMergeRequestView (c : MRCache) (now : Nat) (fullPath iid : String)
    (forceRefresh useCache : Bool)
    (fetchOutcome : Except CaughtError MRQueryResponse) :
    Except GitLabError MergeRequestView × MRCache :=
  if useCache && !forceRefresh then
    match MRCache.get c fullPath iid now with
    | some cached => (Except.ok cached, c)
    | none => getMergeRequestViewFetch c now fullPath iid useCache fetchOutcome
  else getMergeRequestViewFetch c now fullPath iid useCache fetchOutcome

/-! ## Helper lemmas about `deduplicateById` -/

theorem deduplicateByIdGo_sublist {ι : Type} (getId : ι → String) :
    ∀ (l : List ι) (seen : List String),
      (deduplicateByIdGo getId seen l).Sublist l := by
  intro l
  induction l with
  | nil => intro seen; simp [deduplicateByIdGo]
  | cons x xs ih =>
      intro seen
      simp only [deduplicateByIdGo]
      by_cases h : getId x ∈ seen
      · simpa [h] using (ih seen).cons x
      · simpa [h] using (ih (getId x :: seen)).cons₂ x

theorem deduplicateByIdGo_not_mem_seen {ι : Type} (getId : ι → String) :
    ∀ (l : List ι) (seen : List String) (y : ι),
      y ∈ deduplicateByIdGo getId seen l → getId y ∉ seen := by
  intro l
  induction l with
  | nil => intro seen y hy; simp [deduplicateByIdGo] at hy
  | cons x xs ih =>
      intro seen y hy
      simp only [deduplicateByIdGo] at hy
      by_cases h : getId x ∈ seen
      · exact ih seen y (by simpa [h] using hy)
      · rw [if_neg h] at hy
        rcases List.mem_cons.mp hy with rfl | hy'
        · exact h
        · have := ih (getId x :: seen) y hy'
          exact fun hc => this (List.mem_cons_of_mem _ hc)

theorem deduplicateByIdGo_nodup {ι : Type} (getId : ι → String) :
    ∀ (l : List ι) (seen : List String),
      ((deduplicateByIdGo getId seen l).map getId).Nodup := by
  intro l
  induction l with
  | nil => intro seen; simp [deduplicateByIdGo]
  | cons x xs ih =>
      intro seen
      simp only [deduplicateByIdGo]
      by_cases h : getId x ∈ seen
      · simpa [h] using ih seen
      · rw [if_neg h]
        simp only [List.map_cons, List.nodup_cons]
        refine ⟨?_, ih (getId x :: seen)⟩
        intro hmem
        rcases List.mem_map.mp hmem with ⟨y, hy, hxy⟩
        have := deduplicateByIdGo_not_mem_seen getId xs (getId x :: seen) y hy
        exact this (by rw [hxy]; exact List.mem_cons_self _ _)

theorem deduplicateByIdGo_first_seen {ι : Type} (getId : ι → String) :
    ∀ (l : List ι) (seen : List String) (y : ι),
      y ∈ deduplicateByIdGo getId seen l →
        l.find? (fun z => decide (getId z = getId y)) = some y := by
  intro l
  induction l with
  | nil => intro seen y hy; simp [deduplicateByIdGo] at hy
  | cons x xs ih =>
      intro seen y hy
      simp only [deduplicateByIdGo] at hy
      by_cases h : getId x ∈ seen
      · rw [if_pos h] at hy
        have hne : getId x ≠ getId y := by
          intro hc
          exact deduplicateByIdGo_not_mem_seen getId xs seen y hy (hc ▸ h)
        rw [List.find?_cons_of_neg _ (by simpa using hne)]
        exact ih seen y hy
      · rw [if_neg h] at hy
        rcases List.mem_cons.mp hy with rfl | hy'
        · exact List.find?_cons_of_pos _ (by simp)
        · have hne : getId x ≠ getId y := by
            intro hc
            exact deduplicateByIdGo_not_mem_seen getId xs (getId x :: seen) y hy'
              (hc ▸ List.mem_cons_self _ _)
          rw [List.find?_cons_of_neg _ (by simpa using hne)]
          exact ih (getId x :: seen) y hy'

theorem deduplicateByIdGo_mem_map {ι : Type} (getId : ι → String) :
    ∀ (l : List ι) (seen : List String) (x : ι),
      x ∈ l → getId x ∉ seen →
        getId x ∈ (deduplicateByIdGo getId seen l).map getId := by
  intro l
  induction l with
  | nil => intro seen x hx; simp at hx
  | cons a xs ih =>
      intro seen x hx hns
      simp only [deduplicateByIdGo]
      rcases List.mem_cons.mp hx with rfl | hx'
      · rw [if_neg hns]; simp
      · by_cases h : getId a ∈ seen
        · rw [if_pos h]; exact ih seen x hx' hns
        · rw [if_neg h]
          by_cases hax : getId x = getId a
          · simp [hax]
          · simp only [List.map_cons, List.mem_cons]
            exact Or.inr (ih (getId a :: seen) x hx' (by simp [hns, hax]))

theorem deduplicateByIdGo_eq_self {ι : Type} (getId : ι → String) :
    ∀ (l : List ι) (seen : List String),
      (l.map getId).Nodup → (∀ x ∈ l, getId x ∉ seen) →
        deduplicateByIdGo getId seen l = l := by
  intro l
  induction l with
  | nil => intro seen _ _; simp [deduplicateByIdGo]
  | cons x xs ih =>
      intro seen hnd hseen
      simp only [List.map_cons, List.nodup_cons] at hnd
      simp only [deduplicateByIdGo, if_neg (hseen x (List.mem_cons_self _ _))]
      congr 1
      refine ih (getId x :: seen) hnd.2 ?_
      intro z hz
      simp only [List.mem_cons, not_or]
      refine ⟨?_, hseen z (List.mem_cons_of_mem _ hz)⟩
      intro hc
      exact hnd.1 (hc ▸ List.mem_map_of_mem getId hz)

theorem deduplicateById_eq_self_of_nodup {ι : Type} (getId : ι → String)
    (l : List ι) (h : (l.map getId).Nodup) :
    deduplicateById getId l = l :=
  deduplicateByIdGo_eq_self getId l [] h (by simp)

theorem deduplicateById_idem {ι : Type} (getId : ι → String) (l : List ι) :
    deduplicateById getId (deduplicateById getId l) = deduplicateById getId l :=
  deduplicateById_eq_self_of_nodup getId _ (deduplicateByIdGo_nodup getId l [])

/-- C5: the paginator's deduplication keeps each id exactly once at its
first-seen position — for every input list, every id present in the input
occurs exactly once among the output's ids, the output is a subsequence of
the input whose every element is the first input element bearing its id,
and deduplicating an already-deduplicated list changes nothing. -/
theorem C5_deduplicateById_first_seen_once_idempotent
    {ι : Type} (getId : ι → String) (l : List ι) :
    (∀ x ∈ l, ((deduplicateById getId l).map getId).count (getId x) = 1) ∧
    (deduplicateById getId l).Sublist l ∧
    (∀ y ∈ deduplicateById getId l,
      l.find? (fun z => decide (getId z = getId y)) = some y) ∧
    deduplicateById getId (deduplicateById getId l) = deduplicateById getId l := by
  refine ⟨?_, deduplicateByIdGo_sublist getId l [],
    fun y hy => deduplicateByIdGo_first_seen getId l [] y hy,
    deduplicateById_idem getId l⟩
  intro x hx
  have hmem : getId x ∈ (deduplicateById getId l).map getId :=
    deduplicateByIdGo_mem_map getId l [] x hx (by simp)
  have hnd : ((deduplicateById getId l).map getId).Nodup :=
    deduplicateByIdGo_nodup getId l []
  exact List.count_eq_one_of_mem hnd hmem

/-- Demo commit with id "a", used by concrete witnesses. -/
def commitA : Commit :=
  ⟨"a", "sha1", "t1", "m1", "an", "ae", "2024-01-01", "2024-01-02", "u1"⟩

/-- Demo commit with id "b", used by concrete witnesses. -/
def commitB : Commit :=
  ⟨"b", "sha2", "t2", "m2", "bn", "be", "2024-01-03", "2024-01-04", "u2"⟩

/-- Witness for C5: a concrete list in which the id "a" occurs twice. -/
theorem C5_witness :
    ((deduplicateById Commit.id [commitA, commitB, commitA]).map Commit.id).count
        (Commit.id commitA) = 1 ∧
    (deduplicateById Commit.id [commitA, commitB, commitA]).Sublist
      [commitA, commitB, commitA] ∧
    [commitA, commitB, commitA].find?
        (fun z => decide (Commit.id z = Commit.id commitA)) = some commitA ∧
    deduplicateById Commit.id
        (deduplicateById Commit.id [commitA, commitB, commitA]) =
      deduplicateById Commit.id [commitA, commitB, commitA] := by
  obtain ⟨h1, h2, h3, h4⟩ :=
    C5_deduplicateById_first_seen_once_idempotent Commit.id [commitA, commitB, commitA]
  exact ⟨h1 commitA (by decide), h2, h3 commitA (by decide), h4⟩

/-! ## The cursor chain served by a page fetcher

`ChainFrom fetchPage cursor hasMore pages` says: starting from loop state
`(cursor, hasMore)`, the fetcher serves exactly the pages whose item lists
are `pages` — each intermediate state has `hasNextPage = true` and a truthy
(non-null, non-empty) `endCursor`, each fetch succeeds, and the state after
the last page is terminal (`hasNextPage = false` or a falsy cursor). -/
inductive ChainFrom {ι : Type}
    (fetchPage : String → Except GitLabError (PaginatedResult ι)) :
    Option String → Bool → List (List ι) → Prop where
  | nil (cursor : Option String) (hasMore : Bool)
      (h : hasMore = false ∨ cursorTruthy cursor = false) :
      ChainFrom fetchPage cursor hasMore []
  | cons (c : String) (hasMore : Bool) (page : PaginatedResult ι)
      (rest : List (List ι))
      (hm : hasMore = true) (hc : cursorTruthy (some c) = true)
      (hf : fetchPage c = Except.ok page)
      (h : ChainFrom fetchPage page.pageInfo.endCursor
        page.pageInfo.hasNextPage rest) :
      ChainFrom fetchPage (some c) hasMore (page.items :: rest)

theorem fetchAllLoop_chain {ι : Type}
    (fetchPage : String → Except GitLabError (PaginatedResult ι))
    (pages : List (List ι)) (cursor : Option String) (hasMore : Bool)
    (hchain : ChainFrom fetchPage cursor hasMore pages) :
    ∀ (fuel : Nat), pages.length ≤ fuel → ∀ (acc : List ι),
      fetchAllLoop fetchPage fuel cursor hasMore acc =
        ⟨some (Except.ok (acc ++ pages.flatten)), pages.length⟩ := by
  induction hchain with
  | nil cursor hasMore h =>
      intro fuel _ acc
      have hcond : (hasMore && cursorTruthy cursor) = false := by
        rcases h with h | h <;> simp [h]
      cases fuel <;> simp [fetchAllLoop, hcond]
  | cons c hasMore page rest hm hc hf _ ih =>
      intro fuel hfuel acc
      match fuel, hfuel with
      | fuel + 1, hfuel =>
        have hcond : (hasMore && cursorTruthy (some c)) = true := by simp [hm, hc]
        have hrest := ih fuel (by simpa using hfuel) (acc ++ page.items)
        simp only [fetchAllLoop, hcond, if_true, Option.getD, hf, hrest]
        simp [List.append_assoc]

/-- C4: for every page sequence P1..Pn served along the cursor chain —
every page but the last with `hasNextPage = true` and a truthy `endCursor`,
the last with a terminal page info — `fetchAllCommits` and
`fetchAllDiscussions` fetch each page exactly once and, when all ids are
distinct, return the concatenation of the pages' items in page order. -/
theorem C4_pagination_completeness
    (fetchCommitPage : String → Except GitLabError (PaginatedResult Commit))
    (fetchDiscussionPage : String → Except GitLabError (PaginatedResult Discussion))
    (firstC : PaginatedResult Commit) (firstD : PaginatedResult Discussion)
    (restC : List (List Commit)) (restD : List (List Discussion))
    (fuelC fuelD : Nat)
    (hC0 : fetchCommitPage "" = Except.ok firstC)
    (hCchain : ChainFrom fetchCommitPage firstC.pageInfo.endCursor
      firstC.pageInfo.hasNextPage restC)
    (hCfuel : restC.length ≤ fuelC)
    (hCnodup : ((firstC.items ++ restC.flatten).map Commit.id).Nodup)
    (hD0 : fetchDiscussionPage "" = Except.ok firstD)
    (hDchain : ChainFrom fetchDiscussionPage firstD.pageInfo.endCursor
      firstD.pageInfo.hasNextPage restD)
    (hDfuel : restD.length ≤ fuelD)
    (hDnodup : ((firstD.items ++ restD.flatten).map Discussion.id).Nodup) :
    fetchAllCommits fetchCommitPage fuelC =
      ⟨some (Except.ok (firstC.items ++ restC.flatten)), restC.length + 1⟩ ∧
    fetchAllDiscussions fetchDiscussionPage fuelD =
      ⟨some (Except.ok (firstD.items ++ restD.flatten)), restD.length + 1⟩ := by
  constructor
  · simp only [fetchAllCommits, fetchAllByCursor, hC0,
      fetchAllLoop_chain fetchCommitPage restC _ _ hCchain fuelC hCfuel firstC.items]
    simp [Except.map, deduplicateById_eq_self_of_nodup Commit.id _ hCnodup]
  · simp only [fetchAllDiscussions, fetchAllByCursor, hD0,
      fetchAllLoop_chain fetchDiscussionPage restD _ _ hDchain fuelD hDfuel firstD.items]
    simp [Except.map, deduplicateById_eq_self_of_nodup Discussion.id _ hDnodup]

/-- Demo discussion, used by concrete witnesses. -/
def discussionA : Discussion := ⟨"d1", [], false, false⟩

/-- Concrete two-page commit server for the C4 witness. -/
def commitPageServer : String → Except GitLabError (PaginatedResult Commit) :=
  fun cursor =>
    if cursor = "" then Except.ok ⟨[commitA], ⟨true, some "c1"⟩⟩
    else Except.ok ⟨[commitB], ⟨false, none⟩⟩

/-- Concrete one-page discussion server for the C4 witness. -/
def discussionPageServer : String → Except GitLabError (PaginatedResult Discussion) :=
  fun _ => Except.ok ⟨[discussionA], ⟨false, none⟩⟩

/-- Witness for C4: two commit pages of one item each, one discussion page. -/
theorem C4_witness :
    fetchAllCommits commitPageServer 1 =
      ⟨some (Except.ok [commitA, commitB]), 2⟩ ∧
    fetchAllDiscussions discussionPageServer 0 =
      ⟨some (Except.ok [discussionA]), 1⟩ := by
  have chainC : ChainFrom commitPageServer (some "c1") true [[commitB]] :=
    ChainFrom.cons "c1" true ⟨[commitB], ⟨false, none⟩⟩ [] rfl (by decide)
      (by simp [commitPageServer]) (ChainFrom.nil _ _ (Or.inl rfl))
  have chainD : ChainFrom discussionPageServer none false [] :=
    ChainFrom.nil _ _ (Or.inl rfl)
  have h := C4_pagination_completeness commitPageServer discussionPageServer
    ⟨[commitA], ⟨true, some "c1"⟩⟩ ⟨[discussionA], ⟨false, none⟩⟩
    [[commitB]] [] 1 0 (by simp [commitPageServer]) chainC (by decide) (by decide)
    rfl chainD (by decide) (by decide)
  exact ⟨h.1, h.2⟩

/-- Server that always reports another page with the same non-null cursor
value, never a terminal page. -/
def loopingServer (ι : Type) : String → Except GitLabError (PaginatedResult ι) :=
  fun _ => Except.ok ⟨[], ⟨true, some "x"⟩⟩

theorem loopingServer_loop {ι : Type} :
    ∀ (fuel : Nat) (acc : List ι),
      fetchAllLoop (loopingServer ι) fuel (some "x") true acc = ⟨none, fuel⟩ := by
  have hx : cursorTruthy (some "x") = true := by decide
  intro fuel
  induction fuel with
  | zero => intro acc; simp [fetchAllLoop, hx]
  | succ n ih => intro acc; simp [fetchAllLoop, hx, loopingServer, ih]

/-- C10 (implicit): the pagination loop stops as soon as a page reports a
null `endCursor`, even when that page claims `hasNextPage = true`; it
terminates (within fuel equal to the chain length) whenever the cursor
chain eventually reaches a page with `hasNextPage = false` or a falsy
cursor; and a server forever answering `hasNextPage = true` with the same
non-null cursor value makes the loop consume any amount of fuel without
terminating. -/
theorem C10_termination_null_cursor_stop :
    (∀ (fetchPage : String → Except GitLabError (PaginatedResult Commit))
        (fuel : Nat) (firstPage : PaginatedResult Commit),
        fetchPage "" = Except.ok firstPage →
        firstPage.pageInfo.endCursor = none →
        fetchAllCommits fetchPage fuel =
          ⟨some (Except.ok (deduplicateById Commit.id firstPage.items)), 1⟩) ∧
    (∀ (fetchPage : String → Except GitLabError (PaginatedResult Discussion))
        (fuel : Nat) (firstPage : PaginatedResult Discussion),
        fetchPage "" = Except.ok firstPage →
        firstPage.pageInfo.endCursor = none →
        fetchAllDiscussions fetchPage fuel =
          ⟨some (Except.ok (deduplicateById Discussion.id firstPage.items)), 1⟩) ∧
    (∀ (ι : Type) (fetchPage : String → Except GitLabError (PaginatedResult ι))
        (pages : List (List ι)) (cursor : Option String) (hasMore : Bool)
        (fuel : Nat) (acc : List ι),
        ChainFrom fetchPage cursor hasMore pages → pages.length ≤ fuel →
        (fetchAllLoop fetchPage fuel cursor hasMore acc).result ≠ none) ∧
    (∀ (ι : Type) (getId : ι → String) (fuel : Nat),
        (fetchAllByCursor getId (loopingServer ι) fuel).result = none ∧
        (fetchAllByCursor getId (loopingServer ι) fuel).calls = fuel + 1) := by
  have stop : ∀ (ι : Type) (getId : ι → String)
      (fetchPage : String → Except GitLabError (PaginatedResult ι))
      (fuel : Nat) (firstPage : PaginatedResult ι),
      fetchPage "" = Except.ok firstPage →
      firstPage.pageInfo.endCursor = none →
      fetchAllByCursor getId fetchPage fuel =
        ⟨some (Except.ok (deduplicateById getId firstPage.items)), 1⟩ := by
    intro ι getId fetchPage fuel firstPage hfp hcur
    have hcond : (firstPage.pageInfo.hasNextPage &&
        cursorTruthy firstPage.pageInfo.endCursor) = false := by
      simp [hcur, cursorTruthy]
    have hloop : fetchAllLoop fetchPage fuel firstPage.pageInfo.endCursor
        firstPage.pageInfo.hasNextPage firstPage.items =
        ⟨some (Except.ok firstPage.items), 0⟩ := by
      cases fuel <;> simp [fetchAllLoop, hcond]
    simp [fetchAllByCursor, hfp, hloop, Except.map]
  refine ⟨fun f => stop Commit Commit.id f, fun f => stop Discussion Discussion.id f,
    ?_, ?_⟩
  · intro ι fetchPage pages cursor hasMore fuel acc hchain hfuel
    rw [fetchAllLoop_chain fetchPage pages cursor hasMore hchain fuel hfuel acc]
    simp
  · intro ι getId fuel
    have h : fetchAllByCursor getId (loopingServer ι) fuel = ⟨none, fuel + 1⟩ := by
      simp [fetchAllByCursor, loopingServer, loopingServer_loop fuel]
    simp [h]

/-- Witness for C10 at a concrete one-page fetcher whose page claims
`hasNextPage = true` but carries a null cursor. -/
theorem C10_witness :
    fetchAllCommits (fun _ => Except.ok ⟨[commitA], ⟨true, none⟩⟩) 3 =
      ⟨some (Except.ok (deduplicateById Commit.id [commitA])), 1⟩ :=
  C10_termination_null_cursor_stop.1 (fun _ => Except.ok ⟨[commitA], ⟨true, none⟩⟩)
    3 ⟨[commitA], ⟨true, none⟩⟩ rfl rfl

/-! ## Helper lemmas about the transport retry loops -/

/-- Shape of a retry loop in which every attempt fails the same way: one
step either prepends a sleep and recurses with an updated `lastError`, or
(at the final attempt) stops with `final attempt`. Under that shape the
whole loop makes `rem + 1` calls, sleeps `rem` times, and ends with
`final retries`. -/
theorem retryLoop_all_fail {α : Type} (retries : Nat)
    (sleepAt : Nat → ℚ) (upd : Nat → Option CaughtError → Option CaughtError)
    (final : Nat → Except GitLabError α)
    (g : Nat → Nat → Option CaughtError → TransportTrace α)
    (hstep : ∀ (attempt rem : Nat) (lastError : Option CaughtError),
      g attempt (rem + 1) lastError =
        if attempt < retries then
          ⟨(g (attempt + 1) rem (upd attempt lastError)).result,
            (g (attempt + 1) rem (upd attempt lastError)).calls + 1,
            sleepAt attempt :: (g (attempt + 1) rem (upd attempt lastError)).sleeps⟩
        else ⟨final attempt, 1, []⟩) :
    ∀ (rem attempt : Nat) (lastError : Option CaughtError),
      attempt + rem = retries →
      g attempt (rem + 1) lastError =
        ⟨final retries, rem + 1, (List.range' attempt rem).map sleepAt⟩ := by
  intro rem
  induction rem with
  | zero =>
      intro attempt lastError h
      rw [hstep, if_neg (by omega)]
      subst h
      simp
  | succ n ih =>
      intro attempt lastError h
      rw [hstep, if_pos (by omega), ih (attempt + 1) (upd attempt lastError) (by omega)]
      simp [List.range'_succ]

/-- Witness payload body with one GraphQL error message. -/
def bodyWithErrors : GraphQLBody Unit := ⟨["Invalid query"], none⟩

/-- Witness payload body with no errors and no data. -/
def bodyEmpty : GraphQLBody Unit := ⟨[], none⟩

/-- C1 counterexample: a GraphQL transport configured with one retry,
receiving HTTP 404 on every attempt, performs two network calls (not one)
and fails with `GITLAB_UNKNOWN_ERR` (not `GITLAB_NOT_FOUND`) — `graphqlRequest`
has no 404 branch, so 404 falls under the generic retry policy. -/
theorem C1_counterexample :
    (graphqlRequest 1 1000 (fun _ => FetchOutcome.resp 404 none bodyEmpty)
        (fun _ => 0) (fun _ => 0)).calls = 2 ∧
    (graphqlRequest 1 1000 (fun _ => FetchOutcome.resp 404 none bodyEmpty)
        (fun _ => 0) (fun _ => 0)).result =
      Except.error (createGitLabError .GITLAB_UNKNOWN_ERR
        "GraphQL request failed with status 404" (some 404)) :=
  ⟨rfl, rfl⟩

/-- C1 (amended): on both transports a 401/403 response causes exactly one
network call, no sleep, and an immediate `GITLAB_AUTH_ERR`; on the REST
transport a 404 likewise causes exactly one call and an immediate
`GITLAB_NOT_FOUND`; on the GraphQL transport, however, 404 is retried
under the generic backoff policy — with every attempt answering 404 it
performs `retries + 1` calls and finally fails with `GITLAB_UNKNOWN_ERR`. -/
theorem C1_auth_notfound_retry_behavior :
    (∀ (α : Type) (retries retryDelay : Nat)
        (fetchAt : Nat → FetchOutcome (GraphQLBody α)) (j5 j1 : Nat → ℚ)
        (s : Nat) (h : Option Nat) (b : GraphQLBody α),
        (s = 401 ∨ s = 403) → fetchAt 0 = .resp s h b →
        graphqlRequest retries retryDelay fetchAt j5 j1 =
          ⟨Except.error (createGitLabError .GITLAB_AUTH_ERR
            ("Authentication failed. Token may be missing read_api or api scope.\n" ++
              "Create a token at: https://gitlab.com/-/profile/personal_access_tokens\n" ++
              "Required scopes: read_api (for read operations) or api (for read/write operations)")
            (some s)), 1, []⟩) ∧
    (∀ (α : Type) (path : String) (retries retryDelay : Nat)
        (fetchAt : Nat → FetchOutcome α) (j5 j1 : Nat → ℚ)
        (s : Nat) (h : Option Nat) (b : α),
        (s = 401 ∨ s = 403) → fetchAt 0 = .resp s h b →
        restRequest path retries retryDelay fetchAt j5 j1 =
          ⟨Except.error (createGitLabError .GITLAB_AUTH_ERR
            "Authentication failed. Token may be missing read_api or api scope."
            (some s)), 1, []⟩) ∧
    (∀ (α : Type) (path : String) (retries retryDelay : Nat)
        (fetchAt : Nat → FetchOutcome α) (j5 j1 : Nat → ℚ)
        (h : Option Nat) (b : α),
        fetchAt 0 = .resp 404 h b →
        restRequest path retries retryDelay fetchAt j5 j1 =
          ⟨Except.error (createGitLabError .GITLAB_NOT_FOUND
            ("Resource not found: " ++ path) (some 404)), 1, []⟩) ∧
    (∀ (α : Type) (retries retryDelay : Nat)
        (fetchAt : Nat → FetchOutcome (GraphQLBody α)) (j5 j1 : Nat → ℚ)
        (hd : Nat → Option Nat) (bd : Nat → GraphQLBody α),
        (∀ n, fetchAt n = .resp 404 (hd n) (bd n)) →
        graphqlRequest retries retryDelay fetchAt j5 j1 =
          ⟨Except.error (createGitLabError .GITLAB_UNKNOWN_ERR
            ("GraphQL request failed with status " ++ toString 404) (some 404)),
            retries + 1,
            (List.range retries).map (fun n => backoffDelay retryDelay n (j5 n))⟩) := by
  refine ⟨?_, ?_, ?_, ?_⟩
  · intro α retries retryDelay fetchAt j5 j1 s h b hs hf
    rcases hs with rfl | rfl <;>
      simp [graphqlRequest, graphqlRequestGo, hf]
  · intro α path retries retryDelay fetchAt j5 j1 s h b hs hf
    rcases hs with rfl | rfl <;>
      simp [restRequest, restRequestGo, hf]
  · intro α path retries retryDelay fetchAt j5 j1 h b hf
    simp [restRequest, restRequestGo, hf]
  · intro α retries retryDelay fetchAt j5 j1 hd bd hall
    have hstep : ∀ (attempt rem : Nat) (lastError : Option CaughtError),
        graphqlRequestGo retries retryDelay fetchAt j5 j1 attempt (rem + 1) lastError =
          if attempt < retries then
            ⟨(graphqlRequestGo retries retryDelay fetchAt j5 j1 (attempt + 1) rem
                (some (.gitlab (createGitLabError .GITLAB_UNKNOWN_ERR
                  ("GraphQL request failed with status " ++ toString 404) (some 404))))).result,
              (graphqlRequestGo retries retryDelay fetchAt j5 j1 (attempt + 1) rem
                (some (.gitlab (createGitLabError .GITLAB_UNKNOWN_ERR
                  ("GraphQL request failed with status " ++ toString 404) (some 404))))).calls + 1,
              backoffDelay retryDelay attempt (j5 attempt) ::
                (graphqlRequestGo retries retryDelay fetchAt j5 j1 (attempt + 1) rem
                  (some (.gitlab (createGitLabError .GITLAB_UNKNOWN_ERR
                    ("GraphQL request failed with status " ++ toString 404) (some 404))))).sleeps⟩
          else ⟨Except.error (createGitLabError .GITLAB_UNKNOWN_ERR
            ("GraphQL request failed with status " ++ toString 404) (some 404)), 1, []⟩ := by
      intro attempt rem lastError
      by_cases hlt : attempt < retries <;>
        simp [graphqlRequestGo, hall attempt, hlt, statusOk]
    have := retryLoop_all_fail retries
      (fun n => backoffDelay retryDelay n (j5 n))
      (fun _ _ => some (.gitlab (createGitLabError .GITLAB_UNKNOWN_ERR
        ("GraphQL request failed with status " ++ toString 404) (some 404))))
      (fun _ => Except.error (createGitLabError .GITLAB_UNKNOWN_ERR
        ("GraphQL request failed with status " ++ toString 404) (some 404)))
      (graphqlRequestGo retries retryDelay fetchAt j5 j1) hstep retries 0 none
      (by omega)
    simpa [graphqlRequest, List.range_eq_range'] using this

/-- Witness for the amended C1 at concrete inputs: a 401 GraphQL response,
a 403 and a 404 REST response (path "/x"), and an all-404 GraphQL server
with two configured retries. -/
theorem C1_witness :
    (graphqlRequest 3 1000 (fun _ => FetchOutcome.resp 401 none bodyEmpty)
        (fun _ => 0) (fun _ => 0)).calls = 1 ∧
    (restRequest "/x" 3 1000 (fun _ => FetchOutcome.resp 403 none ())
        (fun _ => 0) (fun _ => 0)).calls = 1 ∧
    (restRequest "/x" 3 1000 (fun _ => FetchOutcome.resp 404 none ())
        (fun _ => 0) (fun _ => 0)).result =
      Except.error (createGitLabError .GITLAB_NOT_FOUND
        ("Resource not found: " ++ "/x") (some 404)) ∧
    (graphqlRequest 2 1000 (fun _ => FetchOutcome.resp 404 none bodyEmpty)
        (fun _ => 0) (fun _ => 0)).calls = 3 := by
  obtain ⟨h1, h2, h3, h4⟩ := C1_auth_notfound_retry_behavior
  refine ⟨?_, ?_, ?_, ?_⟩
  · rw [h1 Unit 3 1000 _ _ _ 401 none bodyEmpty (Or.inl rfl) rfl]
  · rw [h2 Unit "/x" 3 1000 _ _ _ 403 none () (Or.inr rfl) rfl]
  · rw [h3 Unit "/x" 3 1000 _ _ _ none () rfl]
  · rw [h4 Unit 2 1000 _ _ _ (fun _ => none) (fun _ => bodyEmpty) (fun _ => rfl)]

/-- C2 counterexample: a GraphQL transport configured with one retry,
receiving on every attempt a 200 response whose body carries a non-empty
`errors` array, performs two network calls — the `catch` block only exempts
`GITLAB_AUTH_ERR` and `GITLAB_RATE_LIMIT` from retry, so `GITLAB_GRAPHQL_ERR`
is retried, contradicting "no further network attempts". -/
theorem C2_counterexample :
    (graphqlRequest 1 1000 (fun _ => FetchOutcome.resp 200 none bodyWithErrors)
        (fun _ => 0) (fun _ => 0)).calls = 2 ∧
    (graphqlRequest 1 1000 (fun _ => FetchOutcome.resp 200 none bodyWithErrors)
        (fun _ => 0) (fun _ => 0)).result =
      Except.error (createGitLabError .GITLAB_GRAPHQL_ERR
        ("GraphQL errors: " ++ String.intercalate ", " ["Invalid query"]) (some 200)) :=
  ⟨rfl, rfl⟩

/-- C2 (amended): a 200-status GraphQL response with a non-empty `errors`
array, or lacking a `data` field, is classified `GITLAB_GRAPHQL_ERR`, but
the error is retried under the generic backoff policy: with every attempt
answering identically, the transport performs `retries + 1` network calls
and only then fails, still carrying `GITLAB_GRAPHQL_ERR`. -/
theorem C2_graphql_error_classified_but_retried :
    (∀ (α : Type) (retries retryDelay : Nat)
        (fetchAt : Nat → FetchOutcome (GraphQLBody α)) (j5 j1 : Nat → ℚ)
        (hd : Nat → Option Nat) (body : GraphQLBody α),
        (∀ n, fetchAt n = .resp 200 (hd n) body) → body.errors ≠ [] →
        graphqlRequest retries retryDelay fetchAt j5 j1 =
          ⟨Except.error (createGitLabError .GITLAB_GRAPHQL_ERR
            ("GraphQL errors: " ++ String.intercalate ", " body.errors) (some 200)),
            retries + 1,
            (List.range retries).map (fun n => backoffDelay retryDelay n (j5 n))⟩) ∧
    (∀ (α : Type) (retries retryDelay : Nat)
        (fetchAt : Nat → FetchOutcome (GraphQLBody α)) (j5 j1 : Nat → ℚ)
        (hd : Nat → Option Nat) (body : GraphQLBody α),
        (∀ n, fetchAt n = .resp 200 (hd n) body) → body.errors = [] →
        body.data = none →
        graphqlRequest retries retryDelay fetchAt j5 j1 =
          ⟨Except.error (createGitLabError .GITLAB_GRAPHQL_ERR
            "GraphQL response missing data" (some 200)),
            retries + 1,
            (List.range retries).map (fun n => backoffDelay retryDelay n (j5 n))⟩) := by
  constructor
  · intro α retries retryDelay fetchAt j5 j1 hd body hall herr
    have hstep : ∀ (attempt rem : Nat) (lastError : Option CaughtError),
        graphqlRequestGo retries retryDelay fetchAt j5 j1 attempt (rem + 1) lastError =
          if attempt < retries then
            ⟨(graphqlRequestGo retries retryDelay fetchAt j5 j1 (attempt + 1) rem
                (some (.gitlab (createGitLabError .GITLAB_GRAPHQL_ERR
                  ("GraphQL errors: " ++ String.intercalate ", " body.errors) (some 200))))).result,
              (graphqlRequestGo retries retryDelay fetchAt j5 j1 (attempt + 1) rem
                (some (.gitlab (createGitLabError .GITLAB_GRAPHQL_ERR
                  ("GraphQL errors: " ++ String.intercalate ", " body.errors) (some 200))))).calls + 1,
              backoffDelay retryDelay attempt (j5 attempt) ::
                (graphqlRequestGo retries retryDelay fetchAt j5 j1 (attempt + 1) rem
                  (some (.gitlab (createGitLabError .GITLAB_GRAPHQL_ERR
                    ("GraphQL errors: " ++ String.intercalate ", " body.errors) (some 200))))).sleeps⟩
          else ⟨Except.error (createGitLabError .GITLAB_GRAPHQL_ERR
            ("GraphQL errors: " ++ String.intercalate ", " body.errors) (some 200)), 1, []⟩ := by
      intro attempt rem lastError
      by_cases hlt : attempt < retries <;>
        simp [graphqlRequestGo, hall attempt, hlt, statusOk, herr]
    have := retryLoop_all_fail retries
      (fun n => backoffDelay retryDelay n (j5 n))
      (fun _ _ => some (.gitlab (createGitLabError .GITLAB_GRAPHQL_ERR
        ("GraphQL errors: " ++ String.intercalate ", " body.errors) (some 200))))
      (fun _ => Except.error (createGitLabError .GITLAB_GRAPHQL_ERR
        ("GraphQL errors: " ++ String.intercalate ", " body.errors) (some 200)))
      (graphqlRequestGo retries retryDelay fetchAt j5 j1) hstep retries 0 none
      (by omega)
    simpa [graphqlRequest, List.range_eq_range'] using this
  · intro α retries retryDelay fetchAt j5 j1 hd body hall herr hdata
    have hstep : ∀ (attempt rem : Nat) (lastError : Option CaughtError),
        graphqlRequestGo retries retryDelay fetchAt j5 j1 attempt (rem + 1) lastError =
          if attempt < retries then
            ⟨(graphqlRequestGo retries retryDelay fetchAt j5 j1 (attempt + 1) rem
                (some (.gitlab (createGitLabError .GITLAB_GRAPHQL_ERR
                  "GraphQL response missing data" (some 200))))).result,
              (graphqlRequestGo retries retryDelay fetchAt j5 j1 (attempt + 1) rem
                (some (.gitlab (createGitLabError .GITLAB_GRAPHQL_ERR
                  "GraphQL response missing data" (some 200))))).calls + 1,
              backoffDelay retryDelay attempt (j5 attempt) ::
                (graphqlRequestGo retries retryDelay fetchAt j5 j1 (attempt + 1) rem
                  (some (.gitlab (createGitLabError .GITLAB_GRAPHQL_ERR
                    "GraphQL response missing data" (some 200))))).sleeps⟩
          else ⟨Except.error (createGitLabError .GITLAB_GRAPHQL_ERR
            "GraphQL response missing data" (some 200)), 1, []⟩ := by
      intro attempt rem lastError
      by_cases hlt : attempt < retries <;>
        simp [graphqlRequestGo, hall attempt, hlt, statusOk, herr, hdata]
    have := retryLoop_all_fail retries
      (fun n => backoffDelay retryDelay n (j5 n))
      (fun _ _ => some (.gitlab (createGitLabError .GITLAB_GRAPHQL_ERR
        "GraphQL response missing data" (some 200))))
      (fun _ => Except.error (createGitLabError .GITLAB_GRAPHQL_ERR
        "GraphQL response missing data" (some 200)))
      (graphqlRequestGo retries retryDelay fetchAt j5 j1) hstep retries 0 none
      (by omega)
    simpa [graphqlRequest, List.range_eq_range'] using this

/-- Witness for the amended C2: with zero retries a single call yields
`GITLAB_GRAPHQL_ERR`; with one retry two calls are made, both for a
non-empty `errors` array and for a missing `data` field. -/
theorem C2_witness :
    (graphqlRequest 0 1000 (fun _ => FetchOutcome.resp 200 none bodyWithErrors)
        (fun _ => 0) (fun _ => 0)).calls = 1 ∧
    (graphqlRequest 2 1000 (fun _ => FetchOutcome.resp 200 none bodyWithErrors)
        (fun _ => 0) (fun _ => 0)).calls = 3 ∧
    (graphqlRequest 2 1000 (fun _ => FetchOutcome.resp 200 none bodyEmpty)
        (fun _ => 0) (fun _ => 0)).result =
      Except.error (createGitLabError .GITLAB_GRAPHQL_ERR
        "GraphQL response missing data" (some 200)) := by
  obtain ⟨h1, h2⟩ := C2_graphql_error_classified_but_retried
  refine ⟨?_, ?_, ?_⟩
  · rw [h1 Unit 0 1000 _ _ _ (fun _ => none) bodyWithErrors (fun _ => rfl) (by decide)]
  · rw [h1 Unit 2 1000 _ _ _ (fun _ => none) bodyWithErrors (fun _ => rfl) (by decide)]
  · rw [h2 Unit 2 1000 _ _ _ (fun _ => none) bodyEmpty (fun _ => rfl) rfl rfl]

/-- C6: on every 429 response the retry-after is read from the parsed
`Retry-After` header, defaulting to 60 seconds when absent. With every
attempt answering 429 with header `h`, both transports sleep exactly once
per non-final attempt for `retryAfterSeconds*1000 + jitter` ms — hence at
least `retryAfterSeconds*1000` and less than that plus 1000 when the
jitter draw lies in `[0, 1000)` — and once attempts are exhausted they
fail with `GITLAB_RATE_LIMIT` carrying `retryAfterSeconds`. -/
theorem C6_rate_limit_retry_after (α : Type) (path : String)
    (retries retryDelay : Nat)
    (gfetch : Nat → FetchOutcome (GraphQLBody α)) (rfetch : Nat → FetchOutcome α)
    (j5 j1 : Nat → ℚ) (h : Option Nat)
    (gb : Nat → GraphQLBody α) (rb : Nat → α)
    (hg : ∀ n, gfetch n = .resp 429 h (gb n))
    (hr : ∀ n, rfetch n = .resp 429 h (rb n))
    (hjit : ∀ n, 0 ≤ j1 n ∧ j1 n < 1000) :
    graphqlRequest retries retryDelay gfetch j5 j1 =
      ⟨Except.error (createGitLabError .GITLAB_RATE_LIMIT
        ("Rate limit exceeded. Please retry after " ++ toString (h.getD 60) ++
          " seconds.\nGitLab API rate limits: https://docs.gitlab.com/ee/api/#rate-limits")
        (some 429) (some (h.getD 60))), retries + 1,
        (List.range retries).map (fun n => rateLimitDelay (h.getD 60) (j1 n))⟩ ∧
    restRequest path retries retryDelay rfetch j5 j1 =
      ⟨Except.error (createGitLabError .GITLAB_RATE_LIMIT
        "Rate limit exceeded" (some 429) (some (h.getD 60))), retries + 1,
        (List.range retries).map (fun n => rateLimitDelay (h.getD 60) (j1 n))⟩ ∧
    (∀ d ∈ (List.range retries).map (fun n => rateLimitDelay (h.getD 60) (j1 n)),
      ((h.getD 60 : ℚ)) * 1000 ≤ d ∧ d < ((h.getD 60 : ℚ)) * 1000 + 1000) := by
  refine ⟨?_, ?_, ?_⟩
  · have hstep : ∀ (attempt rem : Nat) (lastError : Option CaughtError),
        graphqlRequestGo retries retryDelay gfetch j5 j1 attempt (rem + 1) lastError =
          if attempt < retries then
            ⟨(graphqlRequestGo retries retryDelay gfetch j5 j1 (attempt + 1) rem lastError).result,
              (graphqlRequestGo retries retryDelay gfetch j5 j1 (attempt + 1) rem lastError).calls + 1,
              rateLimitDelay (h.getD 60) (j1 attempt) ::
                (graphqlRequestGo retries retryDelay gfetch j5 j1 (attempt + 1) rem lastError).sleeps⟩
          else ⟨Except.error (createGitLabError .GITLAB_RATE_LIMIT
            ("Rate limit exceeded. Please retry after " ++ toString (h.getD 60) ++
              " seconds.\nGitLab API rate limits: https://docs.gitlab.com/ee/api/#rate-limits")
            (some 429) (some (h.getD 60))), 1, []⟩ := by
      intro attempt rem lastError
      by_cases hlt : attempt < retries <;>
        simp [graphqlRequestGo, hg attempt, hlt]
    have := retryLoop_all_fail retries
      (fun n => rateLimitDelay (h.getD 60) (j1 n)) (fun _ le => le)
      (fun _ => Except.error (createGitLabError .GITLAB_RATE_LIMIT
        ("Rate limit exceeded. Please retry after " ++ toString (h.getD 60) ++
          " seconds.\nGitLab API rate limits: https://docs.gitlab.com/ee/api/#rate-limits")
        (some 429) (some (h.getD 60))))
      (graphqlRequestGo retries retryDelay gfetch j5 j1) hstep retries 0 none
      (by omega)
    simpa [graphqlRequest, List.range_eq_range'] using this
  · have hstep : ∀ (attempt rem : Nat) (lastError : Option CaughtError),
        restRequestGo path retries retryDelay rfetch j5 j1 attempt (rem + 1) lastError =
          if attempt < retries then
            ⟨(restRequestGo path retries retryDelay rfetch j5 j1 (attempt + 1) rem lastError).result,
              (restRequestGo path retries retryDelay rfetch j5 j1 (attempt + 1) rem lastError).calls + 1,
              rateLimitDelay (h.getD 60) (j1 attempt) ::
                (restRequestGo path retries retryDelay rfetch j5 j1 (attempt + 1) rem lastError).sleeps⟩
          else ⟨Except.error (createGitLabError .GITLAB_RATE_LIMIT
            "Rate limit exceeded" (some 429) (some (h.getD 60))), 1, []⟩ := by
      intro attempt rem lastError
      by_cases hlt : attempt < retries <;>
        simp [restRequestGo, hr attempt, hlt]
    have := retryLoop_all_fail retries
      (fun n => rateLimitDelay (h.getD 60) (j1 n)) (fun _ le => le)
      (fun _ => Except.error (createGitLabError .GITLAB_RATE_LIMIT
        "Rate limit exceeded" (some 429) (some (h.getD 60))))
      (restRequestGo path retries retryDelay rfetch j5 j1) hstep retries 0 none
      (by omega)
    simpa [restRequest, List.range_eq_range'] using this
  · intro d hd
    rcases List.mem_map.mp hd with ⟨n, _, rfl⟩
    obtain ⟨h0, h1000⟩ := hjit n
    unfold rateLimitDelay
    constructor <;> linarith

/-- Witness for C6: one retry, `Retry-After: 5` on both attempts, zero
jitter — the single sleep is exactly 5000 ms; and with the header absent
and zero retries the failure carries the 60-second default. -/
theorem C6_witness :
    graphqlRequest 1 1000 (fun _ => FetchOutcome.resp 429 (some 5) bodyEmpty)
        (fun _ => 0) (fun _ => 0) =
      ⟨Except.error (createGitLabError .GITLAB_RATE_LIMIT
        ("Rate limit exceeded. Please retry after " ++ toString ((some 5).getD 60) ++
          " seconds.\nGitLab API rate limits: https://docs.gitlab.com/ee/api/#rate-limits")
        (some 429) (some 5)), 2,
        [rateLimitDelay 5 0]⟩ ∧
    restRequest "/x" 0 1000 (fun _ => FetchOutcome.resp 429 none ())
        (fun _ => 0) (fun _ => 0) =
      ⟨Except.error (createGitLabError .GITLAB_RATE_LIMIT
        "Rate limit exceeded" (some 429) (some 60)), 1, []⟩ ∧
    (5 : ℚ) * 1000 ≤ rateLimitDelay 5 0 := by
  obtain ⟨h1, h2, h3⟩ := C6_rate_limit_retry_after Unit "/x" 1 1000
    (fun _ => FetchOutcome.resp 429 (some 5) bodyEmpty)
    (fun _ => FetchOutcome.resp 429 (some 5) ())
    (fun _ => 0) (fun _ => 0) (some 5) (fun _ => bodyEmpty) (fun _ => ())
    (fun _ => rfl) (fun _ => rfl) (fun _ => by norm_num)
  obtain ⟨_, h2', _⟩ := C6_rate_limit_retry_after Unit "/x" 0 1000
    (fun _ => FetchOutcome.resp 429 none bodyEmpty)
    (fun _ => FetchOutcome.resp 429 none ())
    (fun _ => 0) (fun _ => 0) none (fun _ => bodyEmpty) (fun _ => ())
    (fun _ => rfl) (fun _ => rfl) (fun _ => by norm_num)
  refine ⟨?_, ?_, ?_⟩
  · rw [h1]
    rfl
  · rw [h2']
    rfl
  · exact (h3 (rateLimitDelay 5 0) (by simp)).1

/-- C7: under the generic retry policy (exercised here by a fetch that
fails with a connection error on every attempt), both transports sleep
once per non-final attempt for exactly `retryDelay * 2^attempt + jitter`
ms; the delay excluding jitter equals `retryDelay * 2^attempt`, is
monotone in the attempt index, and with jitter drawn from `[0, 500)` every
actual delay is non-negative. -/
theorem C7_backoff_exponential_monotone (α : Type) (path : String)
    (retries retryDelay : Nat)
    (gfetch : Nat → FetchOutcome (GraphQLBody α)) (rfetch : Nat → FetchOutcome α)
    (j5 j1 : Nat → ℚ) (msg : Nat → String)
    (hg : ∀ n, gfetch n = .exn (msg n)) (hr : ∀ n, rfetch n = .exn (msg n))
    (hjit : ∀ n, 0 ≤ j5 n ∧ j5 n < 500) :
    graphqlRequest retries retryDelay gfetch j5 j1 =
      ⟨Except.error (createGitLabError .GITLAB_NET_ERR
        ("Network error after " ++ toString retries ++ " retries: " ++ msg retries)),
        retries + 1,
        (List.range retries).map (fun n => backoffDelay retryDelay n (j5 n))⟩ ∧
    restRequest path retries retryDelay rfetch j5 j1 =
      ⟨Except.error (createGitLabError .GITLAB_NET_ERR
        ("Network error after " ++ toString retries ++ " retries: " ++ msg retries)),
        retries + 1,
        (List.range retries).map (fun n => backoffDelay retryDelay n (j5 n))⟩ ∧
    (∀ n, backoffDelay retryDelay n (j5 n) = (retryDelay : ℚ) * 2 ^ n + j5 n) ∧
    Monotone (fun attempt => backoffDelay retryDelay attempt 0) ∧
    (∀ d ∈ (List.range retries).map (fun n => backoffDelay retryDelay n (j5 n)),
      0 ≤ d ∧ backoffDelay retryDelay 0 0 ≤ d + 0) := by
  refine ⟨?_, ?_, fun n => rfl, ?_, ?_⟩
  · have hstep : ∀ (attempt rem : Nat) (lastError : Option CaughtError),
        graphqlRequestGo retries retryDelay gfetch j5 j1 attempt (rem + 1) lastError =
          if attempt < retries then
            ⟨(graphqlRequestGo retries retryDelay gfetch j5 j1 (attempt + 1) rem
                (some (.plain (msg attempt)))).result,
              (graphqlRequestGo retries retryDelay gfetch j5 j1 (attempt + 1) rem
                (some (.plain (msg attempt)))).calls + 1,
              backoffDelay retryDelay attempt (j5 attempt) ::
                (graphqlRequestGo retries retryDelay gfetch j5 j1 (attempt + 1) rem
                  (some (.plain (msg attempt)))).sleeps⟩
          else ⟨finalizeRequest retries (some (.plain (msg attempt))), 1, []⟩ := by
      intro attempt rem lastError
      by_cases hlt : attempt < retries <;>
        simp [graphqlRequestGo, hg attempt, hlt]
    have := retryLoop_all_fail retries
      (fun n => backoffDelay retryDelay n (j5 n))
      (fun n _ => some (.plain (msg n)))
      (fun n => finalizeRequest retries (some (.plain (msg n))))
      (graphqlRequestGo retries retryDelay gfetch j5 j1) hstep retries 0 none
      (by omega)
    simpa [graphqlRequest, finalizeRequest, List.range_eq_range'] using this
  · have hstep : ∀ (attempt rem : Nat) (lastError : Option CaughtError),
        restRequestGo path retries retryDelay rfetch j5 j1 attempt (rem + 1) lastError =
          if attempt < retries then
            ⟨(restRequestGo path retries retryDelay rfetch j5 j1 (attempt + 1) rem
                (some (.plain (msg attempt)))).result,
              (restRequestGo path retries retryDelay rfetch j5 j1 (attempt + 1) rem
                (some (.plain (msg attempt)))).calls + 1,
              backoffDelay retryDelay attempt (j5 attempt) ::
                (restRequestGo path retries retryDelay rfetch j5 j1 (attempt + 1) rem
                  (some (.plain (msg attempt)))).sleeps⟩
          else ⟨finalizeRequest retries (some (.plain (msg attempt))), 1, []⟩ := by
      intro attempt rem lastError
      by_cases hlt : attempt < retries <;>
        simp [restRequestGo, hr attempt, hlt]
    have := retryLoop_all_fail retries
      (fun n => backoffDelay retryDelay n (j5 n))
      (fun n _ => some (.plain (msg n)))
      (fun n => finalizeRequest retries (some (.plain (msg n))))
      (restRequestGo path retries retryDelay rfetch j5 j1) hstep retries 0 none
      (by omega)
    simpa [restRequest, finalizeRequest, List.range_eq_range'] using this
  · intro a b hab
    simp only [backoffDelay, add_zero]
    have h2 : ((2 : ℚ)) ^ a ≤ 2 ^ b := by
      apply pow_le_pow_right₀ (by norm_num) hab
    have hr0 : (0 : ℚ) ≤ (retryDelay : ℚ) := by positivity
    nlinarith
  · intro d hd
    rcases List.mem_map.mp hd with ⟨n, _, rfl⟩
    obtain ⟨h0, _⟩ := hjit n
    have h2 : (0 : ℚ) < 2 ^ n := by positivity
    have hr0 : (0 : ℚ) ≤ (retryDelay : ℚ) := by positivity
    unfold backoffDelay
    constructor
    · nlinarith
    · have h1 : ((2 : ℚ)) ^ 0 ≤ 2 ^ n := by
        apply pow_le_pow_right₀ (by norm_num) (Nat.zero_le n)
      simp only [pow_zero] at h1
      nlinarith

/-- Witness for C7: two retries, constant zero jitter — the two sleeps are
1000 ms and 2000 ms. -/
theorem C7_witness :
    graphqlRequest 2 1000 (fun n => FetchOutcome.exn ("boom" ++ toString n))
        (fun _ => 0) (fun _ => 0) =
      (⟨Except.error (createGitLabError .GITLAB_NET_ERR
        ("Network error after " ++ toString 2 ++ " retries: " ++ ("boom" ++ toString 2))),
        3, [backoffDelay 1000 0 0, backoffDelay 1000 1 0]⟩ : TransportTrace Unit) ∧
    (0 : ℚ) ≤ backoffDelay 1000 0 0 := by
  obtain ⟨h1, _, _, _, h5⟩ := C7_backoff_exponential_monotone Unit "/x" 2 1000
    (fun n => FetchOutcome.exn ("boom" ++ toString n))
    (fun n => FetchOutcome.exn ("boom" ++ toString n))
    (fun _ => 0) (fun _ => 0) (fun n => "boom" ++ toString n)
    (fun _ => rfl) (fun _ => rfl) (fun _ => by norm_num)
  refine ⟨?_, ?_⟩
  · rw [h1]
    rfl
  · exact (h5 (backoffDelay 1000 0 0)
      (List.mem_map.mpr ⟨0, by simp, rfl⟩)).1

/-- C8: with a positive capacity, `set` followed by `get` at the same
instant returns the value just stored; once strictly more than the
configured TTL has elapsed since the `set`, `get` returns absent with no
eviction having run — likewise for the independent diff space with its own
TTL — and the defaults are 30000 ms (30 s) for the main view and
120000 ms (120 s) for diffs. `get` and `set` are pure state functions. -/
theorem C8_cache_hit_and_ttl_expiry (c : MRCache) (fullPath iid : String)
    (v : MergeRequestView) (d : List Diff) (now nowLater : Nat)
    (hmax : 0 < c.options.maxSize) :
    MRCache.get (MRCache.set c fullPath iid v now) fullPath iid now = some v ∧
    (nowLater - now > c.options.ttlMs →
      MRCache.get (MRCache.set c fullPath iid v now) fullPath iid nowLater = none) ∧
    MRCache.getDiffs (MRCache.setDiffs c fullPath iid d now) fullPath iid now = some d ∧
    (nowLater - now > c.options.diffTtlMs →
      MRCache.getDiffs (MRCache.setDiffs c fullPath iid d now) fullPath iid nowLater = none) ∧
    (mkMRCache {}).options.ttlMs = 30000 ∧
    (mkMRCache {}).options.diffTtlMs = 120000 := by
  obtain ⟨m, hm⟩ : ∃ m, c.options.maxSize = m + 1 :=
    ⟨c.options.maxSize - 1, by omega⟩
  refine ⟨?_, ?_, ?_, ?_, rfl, rfl⟩
  · simp [MRCache.get, MRCache.set, lruGet, lruSet, hm]
  · intro hexp
    simp [MRCache.get, MRCache.set, lruGet, lruSet, hm, hexp]
  · simp [MRCache.getDiffs, MRCache.setDiffs, lruGet, lruSet, hm]
  · intro hexp
    simp [MRCache.getDiffs, MRCache.setDiffs, lruGet, lruSet, hm, hexp]

/-- Demo user for concrete witnesses. -/
def demoUser : User := ⟨"u1", "alice", "Alice", none, "https://x/u1"⟩

/-- Demo normalized view for concrete witnesses. -/
def demoView : MergeRequestView :=
  { id := "gid1", iid := "1", title := "T", description := none,
    state := "opened", author := demoUser, assignees := [], reviewers := [],
    labels := [], sourceBranch := "f", targetBranch := "main",
    webUrl := "https://x/mr/1", createdAt := "2024-01-01",
    updatedAt := "2024-01-02", mergedAt := none, changesCount := none,
    commits := [], pipelines := [], approvals := ⟨false, [], 0, 0⟩,
    diffs := [], discussions := [] }

/-- Witness for C8 on the default-constructed cache: a hit at the same
instant, a miss 30001 ms after the `set` (main) and 120001 ms after the
`setDiffs` (diff space). -/
theorem C8_witness :
    MRCache.get (MRCache.set (mkMRCache {}) "g/p" "1" demoView 0) "g/p" "1" 0 =
      some demoView ∧
    MRCache.get (MRCache.set (mkMRCache {}) "g/p" "1" demoView 0) "g/p" "1" 30001 =
      none ∧
    MRCache.getDiffs (MRCache.setDiffs (mkMRCache {}) "g/p" "1" [] 0) "g/p" "1" 120001 =
      none := by
  obtain ⟨h1, h2, _, h4, _, _⟩ :=
    C8_cache_hit_and_ttl_expiry (mkMRCache {}) "g/p" "1" demoView [] 0 30001
      (by decide)
  obtain ⟨_, _, _, h4', _, _⟩ :=
    C8_cache_hit_and_ttl_expiry (mkMRCache {}) "g/p" "1" demoView [] 0 120001
      (by decide)
  exact ⟨h1, h2 (by decide), h4' (by decide)⟩

/-- C9: every failure of the orchestrator's fetch path reaches the caller
classified — an error already carrying a `GitLabErrorCode` propagates
unchanged, a plain (code-less) exception is wrapped as
`GITLAB_UNKNOWN_ERR`, and a normalizer failure (itself a plain error) is
wrapped the same way. -/
theorem C9_orchestrator_error_wrapping (c : MRCache) (now : Nat)
    (fullPath iid : String) (useCache : Bool) :
    (∀ e : GitLabError,
      getMergeRequestViewFetch c now fullPath iid useCache
          (Except.error (.gitlab e)) = (Except.error e, c)) ∧
    (∀ msg : String,
      getMergeRequestViewFetch c now fullPath iid useCache
          (Except.error (.plain msg)) =
        (Except.error (createGitLabError .GITLAB_UNKNOWN_ERR
          ("Failed to fetch merge request view: " ++ msg)), c)) ∧
    (∀ (data : MRQueryResponse) (msg : String),
      normalizeMR data = Except.error msg →
      getMergeRequestViewFetch c now fullPath iid useCache (Except.ok data) =
        (Except.error (createGitLabError .GITLAB_UNKNOWN_ERR
          ("Failed to fetch merge request view: " ++ msg)), c)) := by
  refine ⟨fun e => rfl, fun msg => rfl, ?_⟩
  intro data msg hnorm
  simp [getMergeRequestViewFetch, hnorm, wrapViewError]

/-- Witness for C9: a classified `GITLAB_NOT_FOUND` passes through
unchanged; a plain exception and a normalizer failure on a project-less
payload are wrapped as `GITLAB_UNKNOWN_ERR`. -/
theorem C9_witness :
    getMergeRequestViewFetch (mkMRCache {}) 0 "g/p" "1" true
        (Except.error (.gitlab (createGitLabError .GITLAB_NOT_FOUND "nf" (some 404)))) =
      (Except.error (createGitLabError .GITLAB_NOT_FOUND "nf" (some 404)),
        mkMRCache {}) ∧
    getMergeRequestViewFetch (mkMRCache {}) 0 "g/p" "1" true
        (Except.error (.plain "boom")) =
      (Except.error (createGitLabError .GITLAB_UNKNOWN_ERR
        ("Failed to fetch merge request view: " ++ "boom")), mkMRCache {}) ∧
    getMergeRequestViewFetch (mkMRCache {}) 0 "g/p" "1" true
        (Except.ok ⟨none⟩) =
      (Except.error (createGitLabError .GITLAB_UNKNOWN_ERR
        ("Failed to fetch merge request view: " ++
          "Invalid MR data: project or mergeRequest is null")), mkMRCache {}) := by
  obtain ⟨h1, h2, h3⟩ :=
    C9_orchestrator_error_wrapping (mkMRCache {}) 0 "g/p" "1" true
  exact ⟨h1 _, h2 "boom", h3 ⟨none⟩ _ rfl⟩

/-- C3 counterexample: on a payload with a null project the normalizer
fails with a plain, code-less `Error` (not an error of any distinguished
validation kind — the repo's `GitLabErrorCode` has no such member), and
the orchestrator classifies that failure as `GITLAB_UNKNOWN_ERR`, which
the claim explicitly rules out. -/
theorem C3_counterexample :
    normalizeMR ⟨none⟩ =
      Except.error "Invalid MR data: project or mergeRequest is null" ∧
    (wrapViewError (.plain "Invalid MR data: project or mergeRequest is null")).code =
      .GITLAB_UNKNOWN_ERR ∧
    (getMergeRequestViewFetch (mkMRCache {}) 0 "g/p" "1" true
        (Except.ok ⟨none⟩)).1 =
      Except.error (createGitLabError .GITLAB_UNKNOWN_ERR
        ("Failed to fetch merge request view: " ++
          "Invalid MR data: project or mergeRequest is null")) :=
  ⟨rfl, rfl, rfl⟩

/-- C3 (amended): whenever the expected root object (project or merge
request) is absent from the raw payload, `normalizeMR` throws the plain,
code-less `Error` "Invalid MR data: project or mergeRequest is null"
(there is no VALIDATION kind in the error taxonomy), and the orchestrator's
catch block wraps that kindless failure as `GITLAB_UNKNOWN_ERR`. -/
theorem C3_normalizer_kindless_error (data : MRQueryResponse)
    (h : data.project = none ∨
      ∃ p, data.project = some p ∧ p.mergeRequest = none) :
    normalizeMR data =
      Except.error "Invalid MR data: project or mergeRequest is null" ∧
    (∀ (c : MRCache) (now : Nat) (fullPath iid : String) (useCache : Bool),
      getMergeRequestViewFetch c now fullPath iid useCache (Except.ok data) =
        (Except.error (createGitLabError .GITLAB_UNKNOWN_ERR
          ("Failed to fetch merge request view: " ++
            "Invalid MR data: project or mergeRequest is null")), c)) := by
  have hnorm : normalizeMR data =
      Except.error "Invalid MR data: project or mergeRequest is null" := by
    rcases h with h | ⟨p, hp, hmr⟩
    · simp [normalizeMR, h]
    · simp [normalizeMR, hp, hmr]
  refine ⟨hnorm, ?_⟩
  intro c now fullPath iid useCache
  simp [getMergeRequestViewFetch, hnorm, wrapViewError]

/-- Witness for the amended C3 at a payload whose project exists but whose
merge request is null. -/
theorem C3_witness :
    normalizeMR ⟨some ⟨none⟩⟩ =
      Except.error "Invalid MR data: project or mergeRequest is null" ∧
    getMergeRequestViewFetch (mkMRCache {}) 7 "g/p" "2" false
        (Except.ok ⟨some ⟨none⟩⟩) =
      (Except.error (createGitLabError .GITLAB_UNKNOWN_ERR
        ("Failed to fetch merge request view: " ++
          "Invalid MR data: project or mergeRequest is null")), mkMRCache {}) := by
  obtain ⟨h1, h2⟩ :=
    C3_normalizer_kindless_error ⟨some ⟨none⟩⟩ (Or.inr ⟨⟨none⟩, rfl, rfl⟩)
  exact ⟨h1, h2 (mkMRCache {}) 7 "g/p" "2" false⟩

end GitLabMCP
